import Mathlib

/-!
Shallow embedding of the Work-Alone SMS monitoring system
(sources: src/commands.py, src/logger.py).

Modelling choices:
- Time is measured in whole minutes (`Time := Nat`); every SQL `NOW()` and
  Python `datetime.now()` becomes an explicit `now : Time` parameter.
  `get_last_check_in` truncates a difference of whole minutes, so it is an
  exact `Int` subtraction here.
- A database table is a Lean list in insertion order; a `SELECT` without
  `ORDER BY` returns rows in that order, and `result[0]` is `head?`.
- A Python function that can raise (dereferencing a `None` lookup,
  comparing `None < int`) returns `Option`: `none` models the uncaught
  exception.
- Side effects on the outside world (Twilio messages, voice calls,
  APScheduler jobs) are collected in a `List Effect` in chronological
  order; writes to Postgres are explicit `DB -> DB` state passing.
-/

abbrev Time := Nat

/-- Session status strings stored in the sessions table. -/
inductive SessionStatus where
  | active
  | inactive
  | alert
deriving DecidableEq, Repr

/-- Row of the users table. -/
structure User where
  id : Nat
  phone : String
  firstName : String
  lastName : String
  delayInterval : Nat
deriving DecidableEq, Repr

/-- Row of the sessions table. -/
structure Session where
  id : Nat
  userId : Nat
  startedAt : Time
  endedAt : Option Time
  status : SessionStatus
  lastCheckInAt : Time
  checkedInByContactId : Option Nat
deriving DecidableEq, Repr

/-- Row of the escalation_contacts table (`contact_of` is the owning user). -/
structure Contact where
  id : Nat
  contactOf : Nat
  firstName : String
  lastName : String
  phone : String
deriving DecidableEq, Repr

/-- Message direction in the message_logs table. -/
inductive Direction where
  | incoming
  | outgoing
deriving DecidableEq, Repr

/-- Row of the message_logs table. -/
structure LogEntry where
  userId : Option Nat
  contactId : Option Nat
  text : String
  direction : Direction
  timestamp : Time
deriving DecidableEq, Repr

/-- The persistent store.  `nextSessionId` models the serial primary key of
the sessions table. -/
structure DB where
  users : List User
  sessions : List Session
  contacts : List Contact
  logs : List LogEntry
  nextSessionId : Nat
deriving DecidableEq, Repr

/-- Which of the three chain callbacks a scheduler job will run. -/
inductive Stage where
  | notifyStage
  | callStage
  | escalateStage
deriving DecidableEq, Repr

/-- An observable side effect: an SMS, a voice call, or a scheduled job
(`schedule` carries the callback stage, the captured phone number and
session id, and `run_in_minutes`). -/
inductive Effect where
  | sms (toNumber : String) (text : String)
  | voiceCall (toNumber : String) (text : String)
  | schedule (stage : Stage) (toNumber : String) (sessionId : Nat) (runInMinutes : Nat)
deriving DecidableEq, Repr

/-- `minutes_to_text` from commands.py.  The argument is an `Int` because
the source also applies it to a computed (possibly negative) minute count;
in the `else` branch the argument is at least 60 so Lean and Python
division conventions agree. -/
def minutes_to_text (minutes : Int) : String :=
  if minutes < 60 then toString minutes ++ " minute(s)"
  else
    let hours := minutes / 60
    let rem_minutes := minutes % 60
    if rem_minutes = 0 then toString hours ++ " hour(s)"
    else toString hours ++ " hour(s) and " ++ toString rem_minutes ++ " minute(s)"

/-- `extract_int` from commands.py: collect the first contiguous run of
digit characters and parse it; `none` when the text has no digit.
Digits are modelled as ASCII 0-9. -/
def extract_int (text : String) : Option Nat :=
  go text.data none
where
  go : List Char → Option Nat → Option Nat
  | [], acc => acc
  | c :: cs, acc =>
    if c.isDigit then go cs (some (acc.getD 0 * 10 + (c.toNat - 48)))
    else
      match acc with
      | some n => some n
      | none => go cs none

/-! ## Logger operations (PostgresLogger in logger.py) -/

/-- `get_user(phone_number=...)`: SELECT * FROM users WHERE phone_number = %s,
first row or None.  An empty phone number skips both query branches. -/
def get_user_by_phone (db : DB) (phone : String) : Option User :=
  if phone = "" then none
  else (db.users.filter (fun u => u.phone == phone)).head?

/-- `get_user(user_id=...)`: SELECT * FROM users WHERE id = %s. -/
def get_user_by_id (db : DB) (uid : Nat) : Option User :=
  (db.users.filter (fun u => u.id == uid)).head?

/-- Boolean predicate of the WHERE clause of `get_active_session`:
status = active AND user_id = uid. -/
def activeFor (uid : Nat) (s : Session) : Bool :=
  s.status == .active && s.userId == uid

/-- `get_active_session`: first row of
SELECT * FROM sessions WHERE status = active AND user_id = %s. -/
def get_active_session (db : DB) (uid : Nat) : Option Session :=
  (db.sessions.filter (activeFor uid)).head?

/-- `active_session_exists`. -/
def active_session_exists (db : DB) (uid : Nat) : Bool :=
  (get_active_session db uid).isSome

/-- `is_active_session`: SELECT * FROM sessions WHERE id = %s; `none` when
the row is missing, otherwise whether its status is active. -/
def is_active_session (db : DB) (sid : Nat) : Option Bool :=
  match db.sessions.filter (fun s => s.id == sid) with
  | [] => none
  | s :: _ => some (s.status == .active)

/-- Helper for the MAX aggregate of `get_last_check_in`. -/
def maxCheckIn (l : List Session) (a : Time) : Time :=
  l.foldl (fun acc s => max acc s.lastCheckInAt) a

/-- `get_last_check_in`: MAX(last_check_in_at) over ALL the user's sessions
(WHERE user_id = %s only, any status); `none` when the user has no session;
otherwise the whole minutes elapsed from that maximum to `now`. -/
def get_last_check_in (db : DB) (uid : Nat) (now : Time) : Option Int :=
  match db.sessions.filter (fun s => s.userId == uid) with
  | [] => none
  | r :: rs => some ((now : Int) - (maxCheckIn rs r.lastCheckInAt : Int))

/-- Field update shared by `end_session` (status inactive) and
`timeout_session` (status alert):
SET ended_at = NOW(), status = %s, last_check_in_at = NOW(). -/
def closeFields (st : SessionStatus) (now : Time) (s : Session) : Session :=
  { s with status := st, endedAt := some now, lastCheckInAt := now }

/-- UPDATE sessions SET ended_at, status, last_check_in_at WHERE id = %s. -/
def closeSessionWith (st : SessionStatus) (db : DB) (sid : Nat) (now : Time) : DB :=
  { db with sessions := db.sessions.map (fun s => if s.id = sid then closeFields st now s else s) }

/-- `end_session`: user-ended close, status inactive. -/
def end_session (db : DB) (sid : Nat) (now : Time) : DB :=
  closeSessionWith .inactive db sid now

/-- `timeout_session`: system-ended close, status alert. -/
def timeout_session (db : DB) (sid : Nat) (now : Time) : DB :=
  closeSessionWith .alert db sid now

/-- `check_in_session`: UPDATE sessions SET last_check_in_at = NOW() WHERE id = %s. -/
def check_in_session (db : DB) (sid : Nat) (now : Time) : DB :=
  { db with sessions := db.sessions.map (fun s => if s.id = sid then { s with lastCheckInAt := now } else s) }

/-- `start_session`: guarded by `user_exists`; INSERT a fresh active session
with started_at = NOW(), last_check_in_at = NOW(); the returned id is read
back through `get_active_session` (first active row for the user). -/
def start_session (db : DB) (uid : Nat) (now : Time) : DB × Option Nat :=
  if (get_user_by_id db uid).isSome = false then (db, none)
  else
    let s : Session :=
      { id := db.nextSessionId, userId := uid, startedAt := now, endedAt := none,
        status := .active, lastCheckInAt := now, checkedInByContactId := none }
    let db' := { db with sessions := db.sessions ++ [s], nextSessionId := db.nextSessionId + 1 }
    (db', (get_active_session db' uid).map (fun t => t.id))

/-- Field update of `deescalate_session`: UPDATE sessions
SET started_at = NOW(), checked_in_by_contact_id = %s, status = inactive. -/
def deescalateFields (contactId : Nat) (now : Time) (s : Session) : Session :=
  { s with startedAt := now, checkedInByContactId := some contactId, status := .inactive }

/-- The row update of `deescalate_session`, applied to the matching id. -/
def deescalate_session (db : DB) (contactId : Nat) (sid : Nat) (now : Time) : DB :=
  { db with sessions := db.sessions.map (fun s =>
      if s.id = sid then deescalateFields contactId now s else s) }

/-- `get_escalation_contact(user_id, contact_phone_num)`: first row of
SELECT * FROM escalation_contacts WHERE contact_of = %s AND phone_number = %s LIMIT 1. -/
def get_escalation_contact (db : DB) (uid : Nat) (phone : String) : Option Contact :=
  (db.contacts.filter (fun c => c.contactOf == uid && c.phone == phone)).head?

/-- `get_escalation_contacts`: all rows WHERE contact_of = %s, or `none`
when the result set is empty (Python `if result:`). -/
def get_escalation_contacts (db : DB) (uid : Nat) : Option (List Contact) :=
  match db.contacts.filter (fun c => c.contactOf == uid) with
  | [] => none
  | c :: cs => some (c :: cs)

/-- `log_user_message`: INSERT INTO message_logs (user_id, ...). -/
def log_user_message (db : DB) (uid : Nat) (text : String) (dir : Direction) (now : Time) : DB :=
  { db with logs := db.logs ++ [{ userId := some uid, contactId := none, text := text, direction := dir, timestamp := now }] }

/-- `log_contact_message`: INSERT INTO message_logs (contact_id, ...). -/
def log_contact_message (db : DB) (cid : Nat) (text : String) (dir : Direction) (now : Time) : DB :=
  { db with logs := db.logs ++ [{ userId := none, contactId := some cid, text := text, direction := dir, timestamp := now }] }

/-! `get_recent_timeouts_for_contact`: the CTE `mostRecentIsTimeout` keeps,
per user, the alert session with the greatest last_check_in_at
(DISTINCT ON (user_id) ... WHERE status = alert
ORDER BY user_id, last_check_in_at DESC), joined against the users for whom
the given phone number is an escalation contact. -/

/-- Row shape returned by `get_recent_timeouts_for_contact`. -/
structure SafeRow where
  sessionId : Nat
  userId : Nat
  lastCheckInAt : Time
  status : SessionStatus
deriving DecidableEq, Repr

/-- Insertion into an ascending list (models ORDER BY user_id). -/
def insertAsc (n : Nat) : List Nat → List Nat
  | [] => [n]
  | m :: ms => if n ≤ m then n :: m :: ms else m :: insertAsc n ms

/-- Ascending sort of user ids. -/
def sortAsc (l : List Nat) : List Nat :=
  l.foldr insertAsc []

/-- This user's alert sessions in table order. -/
def alertSessionsOf (db : DB) (uid : Nat) : List Session :=
  db.sessions.filter (fun s => s.status == .alert && s.userId == uid)

/-- The user ids that own at least one alert session, ascending. -/
def alertUserIds (db : DB) : List Nat :=
  sortAsc (((db.sessions.filter (fun s => s.status == .alert)).map (fun s => s.userId)).dedup)

/-- Per user, the alert session with maximal last_check_in_at (first in
table order among ties). -/
def bestAlertSession (db : DB) (uid : Nat) : Option Session :=
  match alertSessionsOf db uid with
  | [] => none
  | s :: rest =>
    let m := maxCheckIn rest s.lastCheckInAt
    ((s :: rest).filter (fun x => x.lastCheckInAt == m)).head?

/-- `get_recent_timeouts_for_contact`: `none` when the join is empty
(Python `if result:`); a user appears once per matching contact row
(the SQL join multiplies rows). -/
def get_recent_timeouts_for_contact (db : DB) (phone : String) : Option (List SafeRow) :=
  let contactOfIds := (db.contacts.filter (fun c => c.phone == phone)).map (fun c => c.contactOf)
  let rows := (alertUserIds db).flatMap (fun uid =>
    match bestAlertSession db uid with
    | none => []
    | some s =>
      (contactOfIds.filter (fun v => v == uid)).map
        (fun _ => ({ sessionId := s.id, userId := uid, lastCheckInAt := s.lastCheckInAt, status := s.status } : SafeRow)))
  match rows with
  | [] => none
  | r :: rs => some (r :: rs)

/-! ## Message texts (copied verbatim from commands.py) -/

/-- InfoCommand reply. -/
def infoText : String :=
  "LSSD Work‑Alone — Available Commands\n\n\"BEGIN\"\nStart a new Work‑Alone session.\n\n\"DONE\"\nEnd your active Work‑Alone session.\n\n\"INFO\"\nDisplay availiable commands for the Work-ALone System.\n\n(any message)\nCounts as a check‑in during an active session."

/-- BeginCommand confirmation (delay interval rendered by minutes_to_text). -/
def beginText (delay : Nat) : String :=
  "Your Work‑Alone session is now active.\n\nPlease reply “DONE” when you have finished working alone.\nYou will receive a check‑in message in " ++ minutes_to_text (delay : Int) ++ "."

/-- DoneCommand confirmation. -/
def doneText : String :=
  "Your Work‑Alone session has been ended. Stay safe!"

/-- ReplyCommand check-in acknowledgment. -/
def checkInAckText : String :=
  "Thank you for your response. Your check‑in has been recorded."

/-- Reminder SMS of the first chain stage. -/
def reminderText : String :=
  "This is a reminder from the LSSD Work‑Alone System.\n\nPlease respond with anything to this message so we can confirm that you are safe, or if you are finished working alone reply “DONE” to end the session."

/-- Spoken text of the second-stage voice call. -/
def callVoiceText : String :=
  "This is a reminder from the LSSD Work‑Alone System. Please respond with a message so we can confirm your safety."

/-- Follow-up SMS of the second chain stage. -/
def callSmsText (delay : Nat) : String :=
  "This is a reminder from the LSSD Work‑Alone System.\nIf you are finished working alone reply “DONE” to end the session.\nPlease reply within " ++ minutes_to_text (delay : Int) ++ ".\nIf we do not hear from you, your designated contacts will be notified to check on you."

/-- Escalation notification sent to each contact (names the user, the
phone number and the elapsed minutes since the last check-in). -/
def contactAlertText (u : User) (toNumber : String) (m : Int) : String :=
  "Hello, This is a notification from the LSSD Work‑Alone System. " ++ u.firstName ++ " " ++ u.lastName ++ " at " ++ toNumber ++ " has not responded for " ++ minutes_to_text m ++ ".\nPlease check on them as soon as possible.\n\n Once you have made sure they are okay enter \"SAFE\" to log that they are okay."

/-- Message to the user after the contacts were notified. -/
def escalatedUserText : String :=
  "Your escalation contacts have been notified due to inactivity."

/-- SafeCommand reply when no alert session is visible to the contact. -/
def allAccountedText : String :=
  "All users are currently accounted for, no action is needed. Thanks for checking in!"

/-- SafeCommand thank-you confirmation. -/
def safeThanksText : String :=
  "Thanks for checking in on them, the user has now been marked as safe. We appreciate your quick response."

/-! ## The close-all-active-sessions loops

BeginCommand, DoneCommand and the escalation stage run
`while get_active_session(...) is not None: close(...)`.  The loop is
embedded with explicit fuel; `db.sessions.length` steps always suffice
because every iteration closes the returned active session, so the count
of active sessions strictly decreases (proved below). -/

/-- One fueled run of the close-all loop; `st` is the closing status. -/
def closeLoop (st : SessionStatus) : Nat → DB → Nat → Time → DB
  | 0, db, _, _ => db
  | fuel + 1, db, uid, now =>
    match get_active_session db uid with
    | none => db
    | some s => closeLoop st fuel (closeSessionWith st db s.id now) uid now

/-- The `end_session` while-loop of BeginCommand / DoneCommand. -/
def closeAllActive (db : DB) (uid : Nat) (now : Time) : DB :=
  closeLoop .inactive db.sessions.length db uid now

/-- The `timeout_session` while-loop of the escalation stage. -/
def timeoutAllActive (db : DB) (uid : Nat) (now : Time) : DB :=
  closeLoop .alert db.sessions.length db uid now

/-! ## SMS command handlers -/

/-- `BeginCommand.__call__`: silently returns for an unknown number;
otherwise logs the incoming message, closes every active session, starts a
fresh one, schedules the first chain stage after the user's delay interval
and sends plus logs the confirmation. -/
def beginCommand (db : DB) (now : Time) (message : String) (toNumber : String) : DB × List Effect :=
  match get_user_by_phone db toNumber with
  | none => (db, [])
  | some u =>
    let db1 := log_user_message db u.id message .incoming now
    let db2 := closeAllActive db1 u.id now
    match start_session db2 u.id now with
    | (db3, none) => (db3, [])
    | (db3, some sid) =>
      let toSend := beginText u.delayInterval
      let db4 := log_user_message db3 u.id toSend .outgoing now
      (db4, [.schedule .notifyStage toNumber sid u.delayInterval, .sms toNumber toSend])

/-- `DoneCommand.__call__`: logs the incoming message, then if an active
session exists closes them all and sends plus logs the confirmation;
otherwise nothing further. -/
def doneCommand (db : DB) (now : Time) (message : String) (toNumber : String) : DB × List Effect :=
  match get_user_by_phone db toNumber with
  | none => (db, [])
  | some u =>
    let db1 := log_user_message db u.id message .incoming now
    match get_active_session db1 u.id with
    | none => (db1, [])
    | some _ =>
      let db2 := closeAllActive db1 u.id now
      let db3 := log_user_message db2 u.id doneText .outgoing now
      (db3, [.sms toNumber doneText])

/-- `ReplyCommand.__call__` (default handler, user check-in): unknown
senders and users without an active session get the info text; otherwise
the active session's last check-in is refreshed and an acknowledgment is
sent and logged.  (The source checks `active_session_exists` and then
refetches the same session; both reads are the single `match` here.) -/
def replyCommand (db : DB) (now : Time) (message : String) (toNumber : String) : DB × List Effect :=
  match get_user_by_phone db toNumber with
  | none => (db, [.sms toNumber infoText])
  | some u =>
    let db1 := log_user_message db u.id message .incoming now
    match get_active_session db1 u.id with
    | none => (db1, [.sms toNumber infoText])
    | some s =>
      let db2 := check_in_session db1 s.id now
      let db3 := log_user_message db2 u.id checkInAckText .outgoing now
      (db3, [.sms toNumber checkInAckText])

/-- Resolution of one SafeRow: look up the contact record (the source
dereferences it unconditionally, so a missing row is the `none` crash),
log the incoming reply, de-escalate the session, send and log the
thank-you. -/
def safeResolveRow (db : DB) (now : Time) (message : String) (toNumber : String) (row : SafeRow) : Option (DB × List Effect) :=
  match get_escalation_contact db row.userId toNumber with
  | none => none
  | some c =>
    let db1 := log_contact_message db c.id message .incoming now
    let db2 := deescalate_session db1 c.id row.sessionId now
    let db3 := log_contact_message db2 c.id safeThanksText .outgoing now
    some (db3, [.sms toNumber safeThanksText])

/-- The multi-candidate listing built by SafeCommand: one line per row via
`get_user(user_id=...)` (a missing user row is the `none` crash), then the
SAFE instruction. -/
def listingText (db : DB) (rows : List SafeRow) : Option String :=
  (rows.mapM (fun row => (get_user_by_id db row.userId).map
      (fun u => u.firstName ++ " " ++ u.lastName ++ " -> " ++ toString row.userId ++ "\n\n"))).map
    (fun parts =>
      "You have multiple users who have not checked in:\n\n" ++ String.join parts ++
        "To mark someone as safe, reply with: SAFE \x7buser_id\x7d\n\nFor example: SAFE 42")

/-- `SafeCommand.__call__`. -/
def safeCommand (db : DB) (now : Time) (message : String) (toNumber : String) : Option (DB × List Effect) :=
  match get_recent_timeouts_for_contact db toNumber with
  | none => some (db, [.sms toNumber allAccountedText])
  | some rows =>
    if rows.length = 1 then
      match rows.head? with
      | some row => safeResolveRow db now message toNumber row
      | none => none
    else
      match extract_int message with
      | some uid =>
        match rows.find? (fun r => r.userId == uid) with
        | some row => safeResolveRow db now message toNumber row
        | none => (listingText db rows).map (fun t => (db, [Effect.sms toNumber t]))
      | none => (listingText db rows).map (fun t => (db, [Effect.sms toNumber t]))

/-! ## Inactivity chain callbacks -/

/-- `_notify_user_inactivity` (first stage, reminder check).  Note the
source's activity test: it stops only when `is_active_session` returns
`None` (no such session row); an existing but no-longer-active session
falls through to the check-in test. -/
def notify_user_inactivity (db : DB) (now : Time) (toNumber : String) (sid : Nat) : Option (DB × List Effect) :=
  match get_user_by_phone db toNumber with
  | none => none
  | some u =>
    if is_active_session db sid = none then some (db, [])
    else
      match get_last_check_in db u.id now with
      | none => none
      | some m =>
        if m < (u.delayInterval : Int) then
          some (db, [.schedule .notifyStage toNumber sid u.delayInterval])
        else
          some (db, [.sms toNumber reminderText, .schedule .callStage toNumber sid u.delayInterval])

/-- `_call_user_inactivity` (second stage).  Its activity test is
`if not logger.is_active_session(...)`: both `None` and `False` stop. -/
def call_user_inactivity (db : DB) (now : Time) (toNumber : String) (sid : Nat) : Option (DB × List Effect) :=
  match get_user_by_phone db toNumber with
  | none => none
  | some u =>
    if is_active_session db sid ≠ some true then some (db, [])
    else
      match get_last_check_in db u.id now with
      | none => none
      | some m =>
        if m < (u.delayInterval : Int) then
          some (db, [.schedule .notifyStage toNumber sid u.delayInterval])
        else
          some (db, [.voiceCall toNumber callVoiceText,
                     .sms toNumber (callSmsText u.delayInterval),
                     .schedule .escalateStage toNumber sid u.delayInterval])

/-- `_escalate_inactivity` (terminal stage): same activity and check-in
tests as the call stage; with no escalation contacts it stops (the source
guard `contacts is None or len(contacts) == 0` collapses to the `none`
case because `get_escalation_contacts` never returns an empty list);
otherwise
messages every contact with a non-empty phone number, notifies the user,
and times out every active session of the user.  No job is scheduled. -/
def escalate_inactivity (db : DB) (now : Time) (toNumber : String) (sid : Nat) : Option (DB × List Effect) :=
  match get_user_by_phone db toNumber with
  | none => none
  | some u =>
    if is_active_session db sid ≠ some true then some (db, [])
    else
      match get_last_check_in db u.id now with
      | none => none
      | some m =>
        if m < (u.delayInterval : Int) then
          some (db, [.schedule .notifyStage toNumber sid u.delayInterval])
        else
          match get_escalation_contacts db u.id with
          | none => some (db, [])
          | some cs =>
            let contactEffs := (cs.filter (fun c => c.phone != "")).map
              (fun c => Effect.sms c.phone (contactAlertText u toNumber m))
            let db' := timeoutAllActive db u.id now
            some (db', contactEffs ++ [.sms toNumber escalatedUserText])

/-! ## Basic lemmas about the store operations -/

/-- Number of active sessions a user owns. -/
def countActive (db : DB) (uid : Nat) : Nat :=
  db.sessions.countP (activeFor uid)

/-- The single-active-session invariant of the spec. -/
def atMostOneActive (db : DB) : Prop :=
  ∀ uid, countActive db uid ≤ 1

lemma head?_mem' {α : Type} {l : List α} {a : α} (h : l.head? = some a) : a ∈ l := by
  cases l with
  | nil => simp at h
  | cons x xs =>
    simp only [List.head?_cons, Option.some.injEq] at h
    exact h ▸ List.mem_cons_self x xs

lemma get_active_session_spec {db : DB} {uid : Nat} {s : Session}
    (h : get_active_session db uid = some s) :
    s ∈ db.sessions ∧ activeFor uid s = true := by
  have hm := head?_mem' h
  exact List.mem_filter.mp hm

lemma get_active_session_eq_none {db : DB} {uid : Nat} :
    get_active_session db uid = none ↔ countActive db uid = 0 := by
  unfold get_active_session countActive
  rw [List.head?_eq_none_iff, List.countP_eq_zero, List.filter_eq_nil_iff]

lemma activeFor_closeFields {uid : Nat} {st : SessionStatus} (hst : st ≠ .active)
    (now : Time) (s : Session) : activeFor uid (closeFields st now s) = false := by
  unfold activeFor closeFields
  cases st <;> simp_all

lemma closeFields_idem (st : SessionStatus) (now : Time) (s : Session) :
    closeFields st now (closeFields st now s) = closeFields st now s := rfl

lemma countP_map_le {α : Type} (p : α → Bool) (f : α → α) (l : List α)
    (h : ∀ a ∈ l, p (f a) = true → p a = true) :
    (l.map f).countP p ≤ l.countP p := by
  rw [List.countP_map]
  exact List.countP_mono_left h

lemma countP_map_lt {α : Type} (p : α → Bool) (f : α → α) :
    ∀ (l : List α), (∀ a ∈ l, p (f a) = true → p a = true) →
      ∀ a ∈ l, p a = true → p (f a) = false →
      (l.map f).countP p < l.countP p := by
  intro l
  induction l with
  | nil => intro _ a ha; simp at ha
  | cons x xs ih =>
    intro hmono a ha hpa hpfa
    have hmono' : ∀ b ∈ xs, p (f b) = true → p b = true :=
      fun b hb => hmono b (List.mem_cons_of_mem x hb)
    rcases List.mem_cons.mp ha with rfl | hmem
    · have h1 : (xs.map f).countP p ≤ xs.countP p := countP_map_le p f xs hmono'
      rw [List.map_cons, List.countP_cons_of_neg _ _ (by simp [hpfa]),
        List.countP_cons_of_pos _ _ hpa]
      exact Nat.lt_succ_of_le h1
    · have h1 : (xs.map f).countP p < xs.countP p := ih hmono' a hmem hpa hpfa
      by_cases hx : p x = true
      · rw [List.map_cons]
        cases hfx : p (f x) with
        | true => rw [List.countP_cons_of_pos _ _ hfx, List.countP_cons_of_pos _ _ hx]; omega
        | false =>
          rw [List.countP_cons_of_neg _ _ (by simp [hfx]), List.countP_cons_of_pos _ _ hx]
          omega
      · have hfx : p (f x) = false := by
          cases hc : p (f x)
          · rfl
          · exact absurd (hmono x (List.mem_cons_self x xs) hc) hx
        rw [List.map_cons, List.countP_cons_of_neg _ _ (by simp [hfx]),
          List.countP_cons_of_neg _ _ hx]
        omega

lemma closeSessionWith_mono {st : SessionStatus} (hst : st ≠ .active)
    (db : DB) (sid : Nat) (now : Time) (uid : Nat) :
    countActive (closeSessionWith st db sid now) uid ≤ countActive db uid := by
  unfold countActive closeSessionWith
  apply countP_map_le
  intro a _ hpa
  by_cases hid : a.id = sid
  · rw [hid, if_pos rfl, activeFor_closeFields hst] at hpa; cases hpa
  · rwa [if_neg hid] at hpa

lemma closeSessionWith_strict {st : SessionStatus} (hst : st ≠ .active)
    {db : DB} {uid : Nat} {s : Session} (hs : s ∈ db.sessions)
    (hact : activeFor uid s = true) (now : Time) :
    countActive (closeSessionWith st db s.id now) uid < countActive db uid := by
  unfold countActive closeSessionWith
  apply countP_map_lt
  · intro a _ hpa
    by_cases hid : a.id = s.id
    · rw [hid, if_pos rfl, activeFor_closeFields hst] at hpa; cases hpa
    · rwa [if_neg hid] at hpa
  · exact hs
  · exact hact
  · rw [if_pos rfl, activeFor_closeFields hst]

/-! ## The close-all loop: termination bound and shape -/

lemma closeLoop_users (st : SessionStatus) (fuel : Nat) (db : DB) (uid : Nat) (now : Time) :
    (closeLoop st fuel db uid now).users = db.users := by
  induction fuel generalizing db with
  | zero => rfl
  | succ n ih =>
    unfold closeLoop
    cases h : get_active_session db uid with
    | none => rfl
    | some s => rw [ih]; rfl

lemma closeLoop_contacts (st : SessionStatus) (fuel : Nat) (db : DB) (uid : Nat) (now : Time) :
    (closeLoop st fuel db uid now).contacts = db.contacts := by
  induction fuel generalizing db with
  | zero => rfl
  | succ n ih =>
    unfold closeLoop
    cases h : get_active_session db uid with
    | none => rfl
    | some s => rw [ih]; rfl

lemma closeLoop_logs (st : SessionStatus) (fuel : Nat) (db : DB) (uid : Nat) (now : Time) :
    (closeLoop st fuel db uid now).logs = db.logs := by
  induction fuel generalizing db with
  | zero => rfl
  | succ n ih =>
    unfold closeLoop
    cases h : get_active_session db uid with
    | none => rfl
    | some s => rw [ih]; rfl

lemma closeLoop_nextSessionId (st : SessionStatus) (fuel : Nat) (db : DB) (uid : Nat) (now : Time) :
    (closeLoop st fuel db uid now).nextSessionId = db.nextSessionId := by
  induction fuel generalizing db with
  | zero => rfl
  | succ n ih =>
    unfold closeLoop
    cases h : get_active_session db uid with
    | none => rfl
    | some s => rw [ih]; rfl

lemma closeLoop_count_le {st : SessionStatus} (hst : st ≠ .active)
    (fuel : Nat) (db : DB) (uid : Nat) (now : Time) (uid' : Nat) :
    countActive (closeLoop st fuel db uid now) uid' ≤ countActive db uid' := by
  induction fuel generalizing db with
  | zero => exact Nat.le_refl _
  | succ n ih =>
    unfold closeLoop
    cases h : get_active_session db uid with
    | none => exact Nat.le_refl _
    | some s =>
      exact Nat.le_trans (ih _) (closeSessionWith_mono hst db s.id now uid')

lemma closeLoop_count_zero {st : SessionStatus} (hst : st ≠ .active) :
    ∀ (fuel : Nat) (db : DB) (uid : Nat) (now : Time),
      countActive db uid ≤ fuel →
      countActive (closeLoop st fuel db uid now) uid = 0 := by
  intro fuel
  induction fuel with
  | zero =>
    intro db uid now hle
    exact Nat.le_zero.mp hle
  | succ n ih =>
    intro db uid now hle
    unfold closeLoop
    cases h : get_active_session db uid with
    | none => exact (get_active_session_eq_none).mp h
    | some s =>
      obtain ⟨hmem, hact⟩ := get_active_session_spec h
      have hlt := closeSessionWith_strict hst hmem hact now
      exact ih _ uid now (by omega)

/-- The per-session relation left by a close-all loop: each row is either
untouched or has been closed. -/
def CloseRel (st : SessionStatus) (now : Time) (s s' : Session) : Prop :=
  s' = s ∨ s' = closeFields st now s

lemma CloseRel.trans' {st : SessionStatus} {now : Time} {a b c : Session}
    (h1 : CloseRel st now a b) (h2 : CloseRel st now b c) : CloseRel st now a c := by
  rcases h1 with rfl | rfl
  · exact h2
  · rcases h2 with rfl | rfl
    · exact Or.inr rfl
    · exact Or.inr (closeFields_idem st now a)

lemma forall2_closeRel_trans {st : SessionStatus} {now : Time} :
    ∀ {l1 l2 l3 : List Session},
      List.Forall₂ (CloseRel st now) l1 l2 → List.Forall₂ (CloseRel st now) l2 l3 →
      List.Forall₂ (CloseRel st now) l1 l3 := by
  intro l1 l2 l3 h12
  induction h12 generalizing l3 with
  | nil =>
    intro h23
    cases h23
    exact .nil
  | cons hr _ ih =>
    intro h23
    cases h23 with
    | cons hr2 hrest2 => exact .cons (hr.trans' hr2) (ih hrest2)

lemma closeSessionWith_forall2 (st : SessionStatus) (db : DB) (sid : Nat) (now : Time) :
    List.Forall₂ (CloseRel st now) db.sessions (closeSessionWith st db sid now).sessions := by
  unfold closeSessionWith
  rw [List.forall₂_map_right_iff]
  rw [List.forall₂_same]
  intro s _
  by_cases h : s.id = sid
  · rw [if_pos h]; exact Or.inr rfl
  · rw [if_neg h]; exact Or.inl rfl

lemma closeLoop_forall2 (st : SessionStatus) (fuel : Nat) (db : DB) (uid : Nat) (now : Time) :
    List.Forall₂ (CloseRel st now) db.sessions (closeLoop st fuel db uid now).sessions := by
  induction fuel generalizing db with
  | zero => exact List.forall₂_same.mpr (fun s _ => Or.inl rfl)
  | succ n ih =>
    unfold closeLoop
    cases h : get_active_session db uid with
    | none => exact List.forall₂_same.mpr (fun s _ => Or.inl rfl)
    | some s =>
      exact forall2_closeRel_trans (closeSessionWith_forall2 st db s.id now) (ih _)

/-- Combined loop postcondition used by the claims: lengths are equal, every
originally active session of the user is closed with the closing status and
the ended timestamp set, and every row is either untouched or so closed. -/
lemma closeLoop_post {st : SessionStatus} (hst : st ≠ .active)
    (db : DB) (uid : Nat) (now : Time) {fuel : Nat}
    (hfuel : countActive db uid ≤ fuel) :
    List.Forall₂ (fun s s' =>
        (activeFor uid s = true → s' = closeFields st now s) ∧ CloseRel st now s s')
      db.sessions (closeLoop st fuel db uid now).sessions := by
  have hshape := closeLoop_forall2 st fuel db uid now
  have hzero := closeLoop_count_zero hst fuel db uid now hfuel
  rw [List.forall₂_iff_zip] at hshape ⊢
  obtain ⟨hlen, hpairs⟩ := hshape
  refine ⟨hlen, ?_⟩
  intro a b hab
  have hrel := hpairs hab
  refine ⟨?_, hrel⟩
  intro hact
  rcases hrel with h | h
  · exfalso
    have hbmem : b ∈ (closeLoop st fuel db uid now).sessions :=
      (List.of_mem_zip hab).2
    have hp := (List.countP_eq_zero.mp hzero) b hbmem
    rw [h] at hp
    exact hp hact
  · exact h

/-! ## Lemmas about the staleness computation and session start -/

lemma le_maxCheckIn_init : ∀ (l : List Session) (a : Time), a ≤ maxCheckIn l a := by
  intro l
  induction l with
  | nil => intro a; exact Nat.le_refl a
  | cons x xs ih =>
    intro a
    calc a ≤ max a x.lastCheckInAt := Nat.le_max_left _ _
    _ ≤ maxCheckIn xs (max a x.lastCheckInAt) := ih _
    _ = maxCheckIn (x :: xs) a := rfl

lemma mem_le_maxCheckIn : ∀ {l : List Session} {s : Session}, s ∈ l →
    ∀ (a : Time), s.lastCheckInAt ≤ maxCheckIn l a := by
  intro l
  induction l with
  | nil => intro s hs; cases hs
  | cons x xs ih =>
    intro s hs a
    rcases List.mem_cons.mp hs with rfl | hmem
    · calc s.lastCheckInAt ≤ max a s.lastCheckInAt := Nat.le_max_right _ _
      _ ≤ maxCheckIn xs (max a s.lastCheckInAt) := le_maxCheckIn_init _ _
      _ = maxCheckIn (s :: xs) a := rfl
    · exact ih hmem _

/-- The staleness read takes any session of the user into account, whatever
its status: the reported minute count is at most `now` minus that session's
last_check_in_at. -/
lemma get_last_check_in_le {db : DB} {uid : Nat} {s : Session}
    (hs : s ∈ db.sessions) (huid : s.userId = uid) (now : Time) :
    ∃ m, get_last_check_in db uid now = some m ∧
      m ≤ (now : Int) - (s.lastCheckInAt : Int) := by
  have hsf : s ∈ db.sessions.filter (fun t => t.userId == uid) :=
    List.mem_filter.mpr ⟨hs, by simp [huid]⟩
  unfold get_last_check_in
  cases hf : db.sessions.filter (fun t => t.userId == uid) with
  | nil => rw [hf] at hsf; cases hsf
  | cons r rs =>
    refine ⟨_, rfl, ?_⟩
    rw [hf] at hsf
    have hle : s.lastCheckInAt ≤ maxCheckIn rs r.lastCheckInAt := by
      rcases List.mem_cons.mp hsf with rfl | hmem
      · exact le_maxCheckIn_init rs s.lastCheckInAt
      · exact mem_le_maxCheckIn hmem r.lastCheckInAt
    have hle' : (s.lastCheckInAt : Int) ≤ (maxCheckIn rs r.lastCheckInAt : Int) := by
      exact_mod_cast hle
    omega

/-- When the user exists and currently has no active session,
`start_session` appends exactly the fresh active row and reports its id
(which is the store's next serial id). -/
lemma start_session_spec {db : DB} {uid : Nat}
    (hu : (get_user_by_id db uid).isSome = true)
    (hz : countActive db uid = 0) (now : Time) :
    start_session db uid now =
      ({ db with
          sessions := db.sessions ++
            [{ id := db.nextSessionId, userId := uid, startedAt := now, endedAt := none,
               status := .active, lastCheckInAt := now, checkedInByContactId := none }],
          nextSessionId := db.nextSessionId + 1 },
        some db.nextSessionId) := by
  unfold start_session
  rw [hu]
  simp only [Bool.true_eq_false, if_false]
  have hnil : db.sessions.filter (activeFor uid) = [] := by
    rw [List.filter_eq_nil_iff]
    intro a ha hpa
    have : countActive db uid ≠ 0 := by
      unfold countActive
      have := List.countP_pos_iff.mpr ⟨a, ha, hpa⟩
      omega
    exact this hz
  have hact : activeFor uid
      ({ id := db.nextSessionId, userId := uid, startedAt := now, endedAt := none,
         status := .active, lastCheckInAt := now, checkedInByContactId := none } : Session) = true := by
    simp [activeFor]
  simp only [get_active_session, List.filter_append, hnil, List.nil_append,
    List.filter_cons, hact, if_true, List.filter_nil, List.head?_cons, Option.map_some]
  rfl

/-! ## Concrete stores used as witnesses and counterexamples -/

/-- User 1, delay interval 30 minutes. -/
def user1 : User :=
  { id := 1, phone := "+15550000001", firstName := "Ada", lastName := "Lake", delayInterval := 30 }

/-- Store with one session that user 1 already ended at minute 50
(status inactive, ended timestamp 50). -/
def dbEnded : DB :=
  { users := [user1],
    sessions := [{ id := 1, userId := 1, startedAt := 0, endedAt := some 50,
                   status := .inactive, lastCheckInAt := 50, checkedInByContactId := none }],
    contacts := [], logs := [], nextSessionId := 2 }

/-- Store with one active session of user 1 with a recent check-in (minute 40). -/
def dbFresh : DB :=
  { users := [user1],
    sessions := [{ id := 1, userId := 1, startedAt := 0, endedAt := none,
                   status := .active, lastCheckInAt := 40, checkedInByContactId := none }],
    contacts := [], logs := [], nextSessionId := 2 }

/-- Store with one active, long-stale session of user 1 and no escalation
contacts. -/
def dbStale : DB :=
  { users := [user1],
    sessions := [{ id := 1, userId := 1, startedAt := 0, endedAt := none,
                   status := .active, lastCheckInAt := 0, checkedInByContactId := none }],
    contacts := [], logs := [], nextSessionId := 2 }

/-- Store where user 1 exists but has no session at all. -/
def dbNoSession : DB :=
  { users := [user1], sessions := [], contacts := [], logs := [], nextSessionId := 1 }

/-! ## C1 -/

/-- C1: the claim says every stage callback firing for a no-longer-active
session is a no-op with no further scheduling.  The code contradicts it:
`_notify_user_inactivity` stops only when `is_active_session` returns
`None`, so for session 1 of `dbEnded` — which exists but was ended by the
user (`is_active_session` is `some false`) — the reminder stage fired at
minute 100 still sends the reminder SMS and schedules the call stage. -/
theorem c1_reminder_stage_fires_on_ended_session :
    is_active_session dbEnded 1 = some false ∧
    notify_user_inactivity dbEnded 100 "+15550000001" 1 =
      some (dbEnded, [Effect.sms "+15550000001" reminderText,
                      Effect.schedule .callStage "+15550000001" 1 30]) := by
  constructor
  · rfl
  · rfl

/-! ## C2 -/

/-- C2: if a stage callback fires for an active session of a user whose
computed minutes since last check-in are strictly below the delay
interval, then — at every one of the three stages — the store is left
unchanged, no message or call is produced, and the only effect is
rescheduling the first (reminder) stage after the delay interval. -/
theorem c2_fresh_check_in_resets_every_stage
    (db : DB) (now : Time) (toNumber : String) (sid : Nat) (u : User) (m : Int)
    (hu : get_user_by_phone db toNumber = some u)
    (hact : is_active_session db sid = some true)
    (hm : get_last_check_in db u.id now = some m)
    (hfresh : m < (u.delayInterval : Int)) :
    notify_user_inactivity db now toNumber sid =
        some (db, [Effect.schedule .notifyStage toNumber sid u.delayInterval]) ∧
    call_user_inactivity db now toNumber sid =
        some (db, [Effect.schedule .notifyStage toNumber sid u.delayInterval]) ∧
    escalate_inactivity db now toNumber sid =
        some (db, [Effect.schedule .notifyStage toNumber sid u.delayInterval]) := by
  refine ⟨?_, ?_, ?_⟩
  · simp only [notify_user_inactivity, hu, hact, hm]
    simp [hfresh]
  · simp only [call_user_inactivity, hu, hact, hm]
    simp [hfresh]
  · simp only [escalate_inactivity, hu, hact, hm]
    simp [hfresh]

/-- Witness for C2 at `dbFresh`, fired at minute 60 (20 minutes since the
check-in at minute 40, below the 30-minute interval). -/
theorem c2_fresh_check_in_resets_every_stage_witness :
    notify_user_inactivity dbFresh 60 "+15550000001" 1 =
        some (dbFresh, [Effect.schedule .notifyStage "+15550000001" 1 30]) ∧
    call_user_inactivity dbFresh 60 "+15550000001" 1 =
        some (dbFresh, [Effect.schedule .notifyStage "+15550000001" 1 30]) ∧
    escalate_inactivity dbFresh 60 "+15550000001" 1 =
        some (dbFresh, [Effect.schedule .notifyStage "+15550000001" 1 30]) :=
  c2_fresh_check_in_resets_every_stage dbFresh 60 "+15550000001" 1 user1 20
    (by decide) (by decide) (by decide) (by decide)

/-! ## C5 -/

/-- C5: when the terminal stage fires for an active, stale session of a
user with no escalation contacts, it returns with the store unchanged and
an empty effect list: no notification, no session close, no further job. -/
theorem c5_no_contacts_is_dead_end
    (db : DB) (now : Time) (toNumber : String) (sid : Nat) (u : User) (m : Int)
    (hu : get_user_by_phone db toNumber = some u)
    (hact : is_active_session db sid = some true)
    (hm : get_last_check_in db u.id now = some m)
    (hstale : ¬ m < (u.delayInterval : Int))
    (hnc : get_escalation_contacts db u.id = none) :
    escalate_inactivity db now toNumber sid = some (db, []) := by
  simp only [escalate_inactivity, hu, hact, hm, hnc]
  simp [hstale]

/-- Witness for C5 at `dbStale` (no contacts, fired at minute 100, 100
minutes stale against a 30-minute interval). -/
theorem c5_no_contacts_is_dead_end_witness :
    escalate_inactivity dbStale 100 "+15550000001" 1 = some (dbStale, []) :=
  c5_no_contacts_is_dead_end dbStale 100 "+15550000001" 1 user1 100
    (by decide) (by decide) (by decide) (by decide) (by decide)

/-! ## C6 -/

/-- C6 counterexample: for known user 1 with no active session, "done"
sends no outbound message — but it does write a message-log row (the
incoming message is logged before the active-session check), so the
persisted state is not unchanged as claimed. -/
theorem c6_counterexample_done_writes_a_log_row :
    (doneCommand dbNoSession 5 "done" "+15550000001").2 = [] ∧
    (doneCommand dbNoSession 5 "done" "+15550000001").1.logs.length =
      dbNoSession.logs.length + 1 := by
  constructor
  · rfl
  · rfl

/-- C6 amended: for a known user with no active session, "done" sends no
outbound message and writes no session row, but it does append exactly one
incoming message-log row recording the received text. -/
theorem c6_done_no_active_session_only_logs_incoming
    (db : DB) (now : Time) (message toNumber : String) (u : User)
    (hu : get_user_by_phone db toNumber = some u)
    (hno : get_active_session db u.id = none) :
    doneCommand db now message toNumber =
      ({ db with logs := db.logs ++
          [{ userId := some u.id, contactId := none, text := message,
             direction := .incoming, timestamp := now }] }, []) := by
  have hno' : get_active_session
      (log_user_message db u.id message .incoming now) u.id = none := hno
  simp only [doneCommand, hu, hno']
  rfl

/-- Witness for the amended C6 at `dbNoSession`. -/
theorem c6_done_no_active_session_only_logs_incoming_witness :
    doneCommand dbNoSession 5 "done" "+15550000001" =
      ({ dbNoSession with logs := dbNoSession.logs ++
          [{ userId := some 1, contactId := none, text := "done",
             direction := .incoming, timestamp := 5 }] }, []) :=
  c6_done_no_active_session_only_logs_incoming dbNoSession 5 "done" "+15550000001" user1
    (by decide) (by decide)

/-! ## C9 -/

/-- Store with one alert session of user 1 (started at minute 10) and one
escalation contact (id 5). -/
def dbAlert : DB :=
  { users := [user1],
    sessions := [{ id := 1, userId := 1, startedAt := 10, endedAt := none,
                   status := .alert, lastCheckInAt := 20, checkedInByContactId := none }],
    contacts := [{ id := 5, contactOf := 1, firstName := "Eve", lastName := "Hill",
                   phone := "+15550000002" }],
    logs := [], nextSessionId := 2 }

/-- C9 counterexample: de-escalating the alert session of `dbAlert` at
minute 30 rewrites started_at from 10 to 30 (the UPDATE sets
started_at = NOW()), so the claim that only status and the resolving
contact id change — with the started timestamp untouched — is false. -/
theorem c9_counterexample_deescalate_changes_started_at :
    dbAlert.sessions =
      [{ id := 1, userId := 1, startedAt := 10, endedAt := none,
         status := .alert, lastCheckInAt := 20, checkedInByContactId := none }] ∧
    (deescalate_session dbAlert 5 1 30).sessions =
      [{ id := 1, userId := 1, startedAt := 30, endedAt := none,
         status := .inactive, lastCheckInAt := 20, checkedInByContactId := some 5 }] := by
  constructor
  · rfl
  · rfl

/-- C9 amended: de-escalation changes exactly three fields of the targeted
session — status becomes inactive, the resolving contact id is recorded,
and the started timestamp is reset to now — while id, user id, ended
timestamp and last-check-in timestamp are unchanged; sessions with a
different id and all other tables are untouched. -/
theorem c9_deescalate_field_frame (db : DB) (cid sid : Nat) (now : Time) :
    (∀ s ∈ db.sessions, s.id = sid →
      ∃ s' ∈ (deescalate_session db cid sid now).sessions,
        s'.id = s.id ∧ s'.userId = s.userId ∧ s'.status = .inactive ∧
        s'.checkedInByContactId = some cid ∧ s'.startedAt = now ∧
        s'.endedAt = s.endedAt ∧ s'.lastCheckInAt = s.lastCheckInAt) ∧
    (∀ s ∈ db.sessions, s.id ≠ sid → s ∈ (deescalate_session db cid sid now).sessions) ∧
    (deescalate_session db cid sid now).users = db.users ∧
    (deescalate_session db cid sid now).contacts = db.contacts ∧
    (deescalate_session db cid sid now).logs = db.logs := by
  refine ⟨?_, ?_, rfl, rfl, rfl⟩
  · intro s hs hid
    refine ⟨deescalateFields cid now s, ?_, rfl, rfl, rfl, rfl, rfl, rfl, rfl⟩
    have := List.mem_map_of_mem
      (fun s => if s.id = sid then deescalateFields cid now s else s) hs
    simpa [deescalate_session, hid] using this
  · intro s hs hid
    have := List.mem_map_of_mem
      (fun s => if s.id = sid then deescalateFields cid now s else s) hs
    simpa [deescalate_session, hid] using this

/-- Witness for the amended C9 at `dbAlert`: its alert session has id 1,
so the updated row with started timestamp 30 is in the store after
de-escalation. -/
theorem c9_deescalate_field_frame_witness :
    ∃ s' ∈ (deescalate_session dbAlert 5 1 30).sessions,
      s'.id = 1 ∧ s'.userId = 1 ∧ s'.status = .inactive ∧
      s'.checkedInByContactId = some 5 ∧ s'.startedAt = 30 ∧
      s'.endedAt = none ∧ s'.lastCheckInAt = 20 :=
  (c9_deescalate_field_frame dbAlert 5 1 30).1
    { id := 1, userId := 1, startedAt := 10, endedAt := none,
      status := .alert, lastCheckInAt := 20, checkedInByContactId := none }
    (by decide) rfl

/-! ## C10 -/

/-- C10: the staleness test is global per user and closes count as
check-ins.  (i) `get_last_check_in` aggregates last_check_in_at over every
session of the user regardless of status, so the reported minute count is
bounded by each session's recency; (ii) `end_session` and
`timeout_session` refresh the closed row's last_check_in_at to the close
time; (iii) consequently, if any session of the user was closed by
`end_session` within the delay interval before a reminder-stage fire, that
fire — for any still-existing session id of the user, in particular a
dangling older one — takes the reschedule branch instead of sending. -/
theorem c10_staleness_is_global_and_close_refreshes_check_in :
    (∀ (db : DB) (uid : Nat) (now : Time) (s : Session),
        s ∈ db.sessions → s.userId = uid →
        ∃ m, get_last_check_in db uid now = some m ∧
          m ≤ (now : Int) - (s.lastCheckInAt : Int)) ∧
    (∀ (db : DB) (sid : Nat) (now : Time) (s : Session),
        s ∈ db.sessions → s.id = sid →
        closeFields .inactive now s ∈ (end_session db sid now).sessions ∧
        closeFields .alert now s ∈ (timeout_session db sid now).sessions) ∧
    (∀ (db : DB) (toNumber : String) (u : User) (sid sid2 : Nat) (s : Session)
        (now fireAt : Time),
        s ∈ db.sessions → s.id = sid → s.userId = u.id →
        get_user_by_phone (end_session db sid now) toNumber = some u →
        is_active_session (end_session db sid now) sid2 ≠ none →
        (fireAt : Int) - (now : Int) < (u.delayInterval : Int) →
        notify_user_inactivity (end_session db sid now) fireAt toNumber sid2 =
          some (end_session db sid now,
            [Effect.schedule .notifyStage toNumber sid2 u.delayInterval])) := by
  refine ⟨?_, ?_, ?_⟩
  · intro db uid now s hs huid
    exact get_last_check_in_le hs huid now
  · intro db sid now s hs hid
    constructor
    · have := List.mem_map_of_mem
        (fun t => if t.id = sid then closeFields .inactive now t else t) hs
      simpa [end_session, closeSessionWith, hid] using this
    · have := List.mem_map_of_mem
        (fun t => if t.id = sid then closeFields .alert now t else t) hs
      simpa [timeout_session, closeSessionWith, hid] using this
  · intro db toNumber u sid sid2 s now fireAt hs hid huid hu hsess hwithin
    have hmem : closeFields .inactive now s ∈ (end_session db sid now).sessions := by
      have := List.mem_map_of_mem
        (fun t => if t.id = sid then closeFields .inactive now t else t) hs
      simpa [end_session, closeSessionWith, hid] using this
    obtain ⟨m, hm, hmle⟩ :=
      get_last_check_in_le hmem (show (closeFields .inactive now s).userId = u.id from huid) fireAt
    have hfresh : m < (u.delayInterval : Int) := by
      have : (closeFields .inactive now s).lastCheckInAt = now := rfl
      rw [this] at hmle
      omega
    simp only [notify_user_inactivity, hu, hm]
    simp [hsess, hfresh]

/-- Witness for C10: in `dbEnded` (one inactive session, id 1, closed and
refreshed at minute 50), a reminder fire at minute 60 for that same
dangling session id reschedules instead of sending, because the close
counted as a check-in 10 minutes ago.  The store `dbEnded` is
`end_session` applied at minute 50 to the active version of the session. -/
theorem c10_staleness_is_global_and_close_refreshes_check_in_witness :
    notify_user_inactivity
        (end_session { dbEnded with
          sessions := [{ id := 1, userId := 1, startedAt := 0, endedAt := none,
                         status := .active, lastCheckInAt := 0,
                         checkedInByContactId := none }] } 1 50) 60 "+15550000001" 1 =
      some (end_session { dbEnded with
          sessions := [{ id := 1, userId := 1, startedAt := 0, endedAt := none,
                         status := .active, lastCheckInAt := 0,
                         checkedInByContactId := none }] } 1 50,
        [Effect.schedule .notifyStage "+15550000001" 1 30]) :=
  c10_staleness_is_global_and_close_refreshes_check_in.2.2
    { dbEnded with
      sessions := [{ id := 1, userId := 1, startedAt := 0, endedAt := none,
                     status := .active, lastCheckInAt := 0, checkedInByContactId := none }] }
    "+15550000001" user1 1 1
    { id := 1, userId := 1, startedAt := 0, endedAt := none,
      status := .active, lastCheckInAt := 0, checkedInByContactId := none }
    50 60 (by decide) rfl rfl (by decide) (by decide) (by decide)

/-! ## C3 -/

/-- C3: when the terminal stage fires for an active, stale session of a
user with escalation contacts (all with non-empty phone numbers), the
effects are exactly one SMS per contact naming the user and the elapsed
time, followed by the informed-contacts SMS to the user; nothing further
is scheduled; the other tables are untouched; and every active session of
the user is force-closed to status alert with the ended timestamp set
(all sessions being either untouched or so closed). -/
theorem c3_terminal_stage_notifies_contacts_and_forces_alert
    (db : DB) (now : Time) (toNumber : String) (sid : Nat) (u : User) (m : Int)
    (cs : List Contact)
    (hu : get_user_by_phone db toNumber = some u)
    (hact : is_active_session db sid = some true)
    (hm : get_last_check_in db u.id now = some m)
    (hstale : ¬ m < (u.delayInterval : Int))
    (hcs : get_escalation_contacts db u.id = some cs)
    (hphones : ∀ c ∈ cs, c.phone ≠ "") :
    escalate_inactivity db now toNumber sid =
      some (timeoutAllActive db u.id now,
        cs.map (fun c => Effect.sms c.phone (contactAlertText u toNumber m)) ++
          [Effect.sms toNumber escalatedUserText]) ∧
    (∀ st ph sid' k, Effect.schedule st ph sid' k ∉
        cs.map (fun c => Effect.sms c.phone (contactAlertText u toNumber m)) ++
          [Effect.sms toNumber escalatedUserText]) ∧
    (timeoutAllActive db u.id now).users = db.users ∧
    (timeoutAllActive db u.id now).contacts = db.contacts ∧
    (timeoutAllActive db u.id now).logs = db.logs ∧
    countActive (timeoutAllActive db u.id now) u.id = 0 ∧
    List.Forall₂ (fun s s' =>
        (activeFor u.id s = true → s' = closeFields .alert now s) ∧
        (s' = s ∨ s' = closeFields .alert now s))
      db.sessions (timeoutAllActive db u.id now).sessions := by
  have hAlert : (SessionStatus.alert ≠ SessionStatus.active) := by intro h; cases h
  have hfilter : cs.filter (fun c => c.phone != "") = cs := by
    rw [List.filter_eq_self]
    intro c hc
    simpa using hphones c hc
  refine ⟨?_, ?_, closeLoop_users _ _ _ _ _, closeLoop_contacts _ _ _ _ _,
    closeLoop_logs _ _ _ _ _, ?_, ?_⟩
  · simp only [escalate_inactivity, hu, hact, hm, hcs]
    simp [hstale, hfilter, timeoutAllActive]
  · intro st ph sid' k hmem
    rcases List.mem_append.mp hmem with hmem | hmem
    · obtain ⟨c, _, hc⟩ := List.mem_map.mp hmem
      cases hc
    · simp at hmem
  · exact closeLoop_count_zero hAlert _ db u.id now (List.countP_le_length _)
  · exact closeLoop_post hAlert db u.id now (List.countP_le_length _)

/-- Escalation contact of user 1 used by the C3 witness store. -/
def contact5 : Contact :=
  { id := 5, contactOf := 1, firstName := "Eve", lastName := "Hill",
    phone := "+15550000002" }

/-- Store with an active, long-stale session of user 1 and one escalation
contact. -/
def dbEsc : DB :=
  { users := [user1],
    sessions := [{ id := 1, userId := 1, startedAt := 0, endedAt := none,
                   status := .active, lastCheckInAt := 0, checkedInByContactId := none }],
    contacts := [contact5],
    logs := [], nextSessionId := 2 }

/-- Witness for C3 at `dbEsc`, fired at minute 100 (100 minutes stale
against the 30-minute interval). -/
theorem c3_terminal_stage_notifies_contacts_and_forces_alert_witness :
    escalate_inactivity dbEsc 100 "+15550000001" 1 =
      some (timeoutAllActive dbEsc 1 100,
        [contact5].map (fun c => Effect.sms c.phone (contactAlertText user1 "+15550000001" 100)) ++
          [Effect.sms "+15550000001" escalatedUserText]) ∧
    (∀ st ph sid' k, Effect.schedule st ph sid' k ∉
        [contact5].map (fun c => Effect.sms c.phone (contactAlertText user1 "+15550000001" 100)) ++
          [Effect.sms "+15550000001" escalatedUserText]) ∧
    (timeoutAllActive dbEsc 1 100).users = dbEsc.users ∧
    (timeoutAllActive dbEsc 1 100).contacts = dbEsc.contacts ∧
    (timeoutAllActive dbEsc 1 100).logs = dbEsc.logs ∧
    countActive (timeoutAllActive dbEsc 1 100) 1 = 0 ∧
    List.Forall₂ (fun s s' =>
        (activeFor 1 s = true → s' = closeFields .alert 100 s) ∧
        (s' = s ∨ s' = closeFields .alert 100 s))
      dbEsc.sessions (timeoutAllActive dbEsc 1 100).sessions :=
  c3_terminal_stage_notifies_contacts_and_forces_alert dbEsc 100 "+15550000001" 1 user1 100
    [contact5] (by decide) (by decide) (by decide) (by decide) (by decide) (by decide)

/-! ## C8 -/

lemma get_user_by_phone_mem {db : DB} {phone : String} {u : User}
    (h : get_user_by_phone db phone = some u) : u ∈ db.users := by
  unfold get_user_by_phone at h
  by_cases hp : phone = ""
  · rw [if_pos hp] at h; cases h
  · rw [if_neg hp] at h
    exact (List.mem_filter.mp (head?_mem' h)).1

lemma get_user_by_id_isSome {db : DB} {u : User} (hu : u ∈ db.users) :
    (get_user_by_id db u.id).isSome = true := by
  have hmem : u ∈ db.users.filter (fun t => t.id == u.id) :=
    List.mem_filter.mpr ⟨hu, by simp⟩
  unfold get_user_by_id
  cases hf : db.users.filter (fun t => t.id == u.id) with
  | nil => rw [hf] at hmem; cases hmem
  | cons a l => simp

/-- C8: for a known user, "begin" closes every currently active session of
that user (each becomes inactive with the ended timestamp set; afterwards
none is active), appends a fresh active session with last-check-in = now
whose id is the next serial id, schedules the first chain stage after the
delay interval, sends and logs the confirmation stating the interval
through `minutes_to_text` (for 30 it reads "30 minute(s)", for 90 it reads
"1 hour(s) and 30 minute(s)"), and logs the incoming message; for an
unknown phone number it is a no-op with no effects. -/
theorem c8_begin_closes_actives_starts_fresh_and_confirms
    (db : DB) (now : Time) (message toNumber : String) (u : User)
    (hu : get_user_by_phone db toNumber = some u) :
    (∃ closed : List Session,
      List.Forall₂ (fun s s' =>
          (activeFor u.id s = true → s' = closeFields .inactive now s) ∧
          (s' = s ∨ s' = closeFields .inactive now s)) db.sessions closed ∧
      (∀ s' ∈ closed, activeFor u.id s' = false) ∧
      beginCommand db now message toNumber =
        ({ users := db.users,
           sessions := closed ++
             [{ id := db.nextSessionId, userId := u.id, startedAt := now,
                endedAt := none, status := .active, lastCheckInAt := now,
                checkedInByContactId := none }],
           contacts := db.contacts,
           logs := db.logs ++
             [{ userId := some u.id, contactId := none, text := message,
                direction := .incoming, timestamp := now },
              { userId := some u.id, contactId := none, text := beginText u.delayInterval,
                direction := .outgoing, timestamp := now }],
           nextSessionId := db.nextSessionId + 1 },
         [Effect.schedule .notifyStage toNumber db.nextSessionId u.delayInterval,
          Effect.sms toNumber (beginText u.delayInterval)])) ∧
    minutes_to_text 30 = "30 minute(s)" ∧
    minutes_to_text 90 = "1 hour(s) and 30 minute(s)" ∧
    (∀ (db2 : DB) (now2 : Time) (msg2 ph2 : String),
        get_user_by_phone db2 ph2 = none →
        beginCommand db2 now2 msg2 ph2 = (db2, [])) := by
  have hIna : (SessionStatus.inactive ≠ SessionStatus.active) := by intro h; cases h
  have hmemu : u ∈ db.users := get_user_by_phone_mem hu
  have hz : countActive
      (closeAllActive (log_user_message db u.id message .incoming now) u.id now) u.id = 0 :=
    closeLoop_count_zero hIna _ _ u.id now (List.countP_le_length _)
  have husers2 : (closeAllActive (log_user_message db u.id message .incoming now) u.id now).users
      = db.users := closeLoop_users _ _ _ _ _
  have hcont2 : (closeAllActive (log_user_message db u.id message .incoming now) u.id now).contacts
      = db.contacts := closeLoop_contacts _ _ _ _ _
  have hlogs2 : (closeAllActive (log_user_message db u.id message .incoming now) u.id now).logs
      = db.logs ++ [{ userId := some u.id, contactId := none, text := message,
                      direction := .incoming, timestamp := now }] :=
    closeLoop_logs _ _ _ _ _
  have hnext2 : (closeAllActive (log_user_message db u.id message .incoming now) u.id now).nextSessionId
      = db.nextSessionId := closeLoop_nextSessionId _ _ _ _ _
  have hu2 : (get_user_by_id
      (closeAllActive (log_user_message db u.id message .incoming now) u.id now) u.id).isSome = true := by
    unfold get_user_by_id
    rw [husers2]
    exact get_user_by_id_isSome hmemu
  have hstart := start_session_spec hu2 hz now
  refine ⟨⟨(closeAllActive (log_user_message db u.id message .incoming now) u.id now).sessions,
    ?_, ?_, ?_⟩, rfl, rfl, ?_⟩
  · exact closeLoop_post hIna (log_user_message db u.id message .incoming now) u.id now
      (List.countP_le_length _)
  · intro s' hs'
    simpa using (List.countP_eq_zero.mp hz) s' hs'
  · rw [husers2, hcont2, hlogs2, hnext2] at hstart
    simp only [beginCommand, hu, hstart]
    simp only [log_user_message]
    simp only [Prod.mk.injEq, DB.mk.injEq]
    simp [List.append_assoc]
  · intro db2 now2 msg2 ph2 hnone
    simp only [beginCommand, hnone]

/-- Witness for C8 at `dbNoSession` (user 1 known, no prior session):
"begin" at minute 7 creates the active session with serial id 1, schedules
the first stage after 30 minutes and sends the confirmation built from
`minutes_to_text`. -/
theorem c8_begin_closes_actives_starts_fresh_and_confirms_witness :
    (∃ closed : List Session,
      List.Forall₂ (fun s s' =>
          (activeFor 1 s = true → s' = closeFields .inactive 7 s) ∧
          (s' = s ∨ s' = closeFields .inactive 7 s)) dbNoSession.sessions closed ∧
      (∀ s' ∈ closed, activeFor 1 s' = false) ∧
      beginCommand dbNoSession 7 "begin" "+15550000001" =
        ({ users := [user1],
           sessions := closed ++
             [{ id := 1, userId := 1, startedAt := 7, endedAt := none,
                status := .active, lastCheckInAt := 7, checkedInByContactId := none }],
           contacts := [],
           logs := [{ userId := some 1, contactId := none, text := "begin",
                      direction := .incoming, timestamp := 7 },
                    { userId := some 1, contactId := none, text := beginText 30,
                      direction := .outgoing, timestamp := 7 }],
           nextSessionId := 2 },
         [Effect.schedule .notifyStage "+15550000001" 1 30,
          Effect.sms "+15550000001" (beginText 30)])) ∧
    minutes_to_text 30 = "30 minute(s)" ∧
    minutes_to_text 90 = "1 hour(s) and 30 minute(s)" ∧
    (∀ (db2 : DB) (now2 : Time) (msg2 ph2 : String),
        get_user_by_phone db2 ph2 = none →
        beginCommand db2 now2 msg2 ph2 = (db2, [])) :=
  c8_begin_closes_actives_starts_fresh_and_confirms dbNoSession 7 "begin" "+15550000001"
    user1 (by decide)

/-! ## C7 -/

/-- C7: with more than one alert-session candidate visible to a contact:
if the first digit run of the reply parses to a candidate user id, exactly
that user's session is de-escalated (all other sessions and tables
untouched except the two contact log rows) and the thank-you is sent;
if the reply has no digits, or the parsed integer matches no candidate,
the store is left entirely unchanged and the listing text (names, ids and
the SAFE instruction, as built by `listingText`) is sent instead. -/
theorem c7_safe_multi_candidate_disambiguation
    (db : DB) (now : Time) (message toNumber : String) (rows : List SafeRow)
    (hrows : get_recent_timeouts_for_contact db toNumber = some rows)
    (hmulti : 1 < rows.length) :
    (∀ uid row c,
        extract_int message = some uid →
        rows.find? (fun r => r.userId == uid) = some row →
        get_escalation_contact db row.userId toNumber = some c →
        ∃ db',
          safeCommand db now message toNumber =
            some (db', [Effect.sms toNumber safeThanksText]) ∧
          db'.sessions = db.sessions.map
            (fun s => if s.id = row.sessionId then deescalateFields c.id now s else s) ∧
          db'.users = db.users ∧
          db'.contacts = db.contacts ∧
          db'.logs = db.logs ++
            [{ userId := none, contactId := some c.id, text := message,
               direction := .incoming, timestamp := now },
             { userId := none, contactId := some c.id, text := safeThanksText,
               direction := .outgoing, timestamp := now }]) ∧
    (∀ txt,
        extract_int message = none →
        listingText db rows = some txt →
        safeCommand db now message toNumber = some (db, [Effect.sms toNumber txt])) ∧
    (∀ uid txt,
        extract_int message = some uid →
        rows.find? (fun r => r.userId == uid) = none →
        listingText db rows = some txt →
        safeCommand db now message toNumber = some (db, [Effect.sms toNumber txt])) := by
  have hne : rows.length ≠ 1 := Nat.ne_of_gt hmulti
  refine ⟨?_, ?_, ?_⟩
  · intro uid row c hex hfind hc
    refine ⟨log_contact_message
        (deescalate_session (log_contact_message db c.id message .incoming now)
          c.id row.sessionId now) c.id safeThanksText .outgoing now, ?_, rfl, rfl, rfl, ?_⟩
    · simp only [safeCommand, hrows]
      rw [if_neg hne]
      simp only [hex, hfind, safeResolveRow, hc]
    · simp only [log_contact_message, deescalate_session]
      rw [List.append_assoc]
      rfl
  · intro txt hex hlist
    simp only [safeCommand, hrows]
    rw [if_neg hne]
    simp only [hex, hlist]
    rfl
  · intro uid txt hex hfind hlist
    simp only [safeCommand, hrows]
    rw [if_neg hne]
    simp only [hex, hfind, hlist]
    rfl

/-- User 7 of the C7 witness store. -/
def user7 : User :=
  { id := 7, phone := "+15550000007", firstName := "Bob", lastName := "Stone", delayInterval := 30 }

/-- User 42 of the C7 witness store. -/
def user42 : User :=
  { id := 42, phone := "+15550000042", firstName := "Cara", lastName := "Reed", delayInterval := 30 }

/-- One shared contact phone is registered for both users 7 and 42, whose
most recent sessions are in alert status. -/
def dbTwoAlerts : DB :=
  { users := [user7, user42],
    sessions := [{ id := 1, userId := 7, startedAt := 0, endedAt := some 90,
                   status := .alert, lastCheckInAt := 90, checkedInByContactId := none },
                 { id := 2, userId := 42, startedAt := 0, endedAt := some 95,
                   status := .alert, lastCheckInAt := 95, checkedInByContactId := none }],
    contacts := [{ id := 9, contactOf := 7, firstName := "Eve", lastName := "Hill",
                   phone := "+15550000002" },
                 { id := 10, contactOf := 42, firstName := "Eve", lastName := "Hill",
                   phone := "+15550000002" }],
    logs := [], nextSessionId := 3 }

/-- Witness for C7 at `dbTwoAlerts` (candidates 7 and 42): "safe 42"
de-escalates only user 42's session (id 2); "ok" and "safe 99" leave the
store unchanged and send the two-candidate listing. -/
theorem c7_safe_multi_candidate_disambiguation_witness :
    (∃ db',
      safeCommand dbTwoAlerts 100 "safe 42" "+15550000002" =
        some (db', [Effect.sms "+15550000002" safeThanksText]) ∧
      db'.sessions = dbTwoAlerts.sessions.map
        (fun s => if s.id = 2 then deescalateFields 10 100 s else s) ∧
      db'.users = dbTwoAlerts.users ∧
      db'.contacts = dbTwoAlerts.contacts ∧
      db'.logs = dbTwoAlerts.logs ++
        [{ userId := none, contactId := some 10, text := "safe 42",
           direction := .incoming, timestamp := 100 },
         { userId := none, contactId := some 10, text := safeThanksText,
           direction := .outgoing, timestamp := 100 }]) ∧
    safeCommand dbTwoAlerts 100 "ok" "+15550000002" =
      some (dbTwoAlerts, [Effect.sms "+15550000002"
        "You have multiple users who have not checked in:\n\nBob Stone -> 7\n\nCara Reed -> 42\n\nTo mark someone as safe, reply with: SAFE \x7buser_id\x7d\n\nFor example: SAFE 42"]) ∧
    safeCommand dbTwoAlerts 100 "safe 99" "+15550000002" =
      some (dbTwoAlerts, [Effect.sms "+15550000002"
        "You have multiple users who have not checked in:\n\nBob Stone -> 7\n\nCara Reed -> 42\n\nTo mark someone as safe, reply with: SAFE \x7buser_id\x7d\n\nFor example: SAFE 42"]) :=
  ⟨(c7_safe_multi_candidate_disambiguation dbTwoAlerts 100 "safe 42" "+15550000002"
      [{ sessionId := 1, userId := 7, lastCheckInAt := 90, status := .alert },
       { sessionId := 2, userId := 42, lastCheckInAt := 95, status := .alert }]
      (by decide) (by decide)).1 42
      { sessionId := 2, userId := 42, lastCheckInAt := 95, status := .alert }
      { id := 10, contactOf := 42, firstName := "Eve", lastName := "Hill",
        phone := "+15550000002" }
      (by decide) (by decide) (by decide),
   (c7_safe_multi_candidate_disambiguation dbTwoAlerts 100 "ok" "+15550000002"
      [{ sessionId := 1, userId := 7, lastCheckInAt := 90, status := .alert },
       { sessionId := 2, userId := 42, lastCheckInAt := 95, status := .alert }]
      (by decide) (by decide)).2.1 _ (by decide) (by decide),
   (c7_safe_multi_candidate_disambiguation dbTwoAlerts 100 "safe 99" "+15550000002"
      [{ sessionId := 1, userId := 7, lastCheckInAt := 90, status := .alert },
       { sessionId := 2, userId := 42, lastCheckInAt := 95, status := .alert }]
      (by decide) (by decide)).2.2 99 _ (by decide) (by decide) (by decide)⟩

/-! ## C4: the single-active-session invariant -/

/-- One core operation of the system: a command handler run, a check-in,
a chain-stage callback fire, or a contact "safe" resolution.  For the
fallible handlers a step exists only when the source run does not raise. -/
inductive Step : DB → DB → Prop where
  | begin_step (db : DB) (now : Time) (message toNumber : String) :
      Step db (beginCommand db now message toNumber).1
  | done_step (db : DB) (now : Time) (message toNumber : String) :
      Step db (doneCommand db now message toNumber).1
  | checkin_step (db : DB) (now : Time) (message toNumber : String) :
      Step db (replyCommand db now message toNumber).1
  | safe_step (db : DB) (now : Time) (message toNumber : String) (r : DB × List Effect) :
      safeCommand db now message toNumber = some r → Step db r.1
  | notify_step (db : DB) (now : Time) (toNumber : String) (sid : Nat) (r : DB × List Effect) :
      notify_user_inactivity db now toNumber sid = some r → Step db r.1
  | call_step (db : DB) (now : Time) (toNumber : String) (sid : Nat) (r : DB × List Effect) :
      call_user_inactivity db now toNumber sid = some r → Step db r.1
  | escalate_step (db : DB) (now : Time) (toNumber : String) (sid : Nat) (r : DB × List Effect) :
      escalate_inactivity db now toNumber sid = some r → Step db r.1

lemma check_in_count_le (db : DB) (sid : Nat) (now : Time) (v : Nat) :
    countActive (check_in_session db sid now) v ≤ countActive db v := by
  unfold countActive check_in_session
  apply countP_map_le
  intro a _ hpa
  by_cases hid : a.id = sid
  · rw [hid, if_pos rfl] at hpa
    exact hpa
  · rwa [if_neg hid] at hpa

lemma deescalate_count_le (db : DB) (cid sid : Nat) (now : Time) (v : Nat) :
    countActive (deescalate_session db cid sid now) v ≤ countActive db v := by
  unfold countActive deescalate_session
  apply countP_map_le
  intro a _ hpa
  by_cases hid : a.id = sid
  · rw [hid, if_pos rfl] at hpa
    exact absurd hpa (by simp [deescalateFields, activeFor])
  · rwa [if_neg hid] at hpa

lemma doneCommand_count_le (db : DB) (now : Time) (message toNumber : String) (v : Nat) :
    countActive (doneCommand db now message toNumber).1 v ≤ countActive db v := by
  have hIna : (SessionStatus.inactive ≠ SessionStatus.active) := by intro h; cases h
  cases hu : get_user_by_phone db toNumber with
  | none =>
    simp only [doneCommand, hu]
    exact Nat.le_refl _
  | some u =>
    simp only [doneCommand, hu]
    cases hs : get_active_session (log_user_message db u.id message Direction.incoming now) u.id with
    | none =>
      simp only [hs]
      exact Nat.le_refl _
    | some s =>
      simp only [hs]
      exact closeLoop_count_le hIna _ _ u.id now v

lemma replyCommand_count_le (db : DB) (now : Time) (message toNumber : String) (v : Nat) :
    countActive (replyCommand db now message toNumber).1 v ≤ countActive db v := by
  cases hu : get_user_by_phone db toNumber with
  | none =>
    simp only [replyCommand, hu]
    exact Nat.le_refl _
  | some u =>
    simp only [replyCommand, hu]
    cases hs : get_active_session (log_user_message db u.id message Direction.incoming now) u.id with
    | none =>
      simp only [hs]
      exact Nat.le_refl _
    | some s =>
      simp only [hs]
      exact check_in_count_le _ s.id now v

lemma safeResolveRow_count_le {db : DB} {now : Time} {message toNumber : String}
    {row : SafeRow} {r : DB × List Effect}
    (h : safeResolveRow db now message toNumber row = some r) (v : Nat) :
    countActive r.1 v ≤ countActive db v := by
  unfold safeResolveRow at h
  cases hc : get_escalation_contact db row.userId toNumber with
  | none =>
    rw [hc] at h
    exact Option.noConfusion h
  | some c =>
    rw [hc] at h
    cases Option.some.inj h
    exact deescalate_count_le _ _ _ _ _

lemma safeCommand_count_le {db : DB} {now : Time} {message toNumber : String}
    {r : DB × List Effect}
    (h : safeCommand db now message toNumber = some r) (v : Nat) :
    countActive r.1 v ≤ countActive db v := by
  unfold safeCommand at h
  cases hrows : get_recent_timeouts_for_contact db toNumber with
  | none =>
    simp only [hrows] at h
    cases Option.some.inj h
    exact Nat.le_refl _
  | some rows =>
    simp only [hrows] at h
    by_cases hlen : rows.length = 1
    · rw [if_pos hlen] at h
      cases hh : rows.head? with
      | none =>
        rw [hh] at h
        exact Option.noConfusion h
      | some row =>
        rw [hh] at h
        exact safeResolveRow_count_le h v
    · rw [if_neg hlen] at h
      cases hex : extract_int message with
      | none =>
        simp only [hex] at h
        cases hl : listingText db rows with
        | none =>
          rw [hl] at h
          exact Option.noConfusion h
        | some txt =>
          rw [hl] at h
          cases Option.some.inj h
          exact Nat.le_refl _
      | some uid =>
        simp only [hex] at h
        cases hfind : rows.find? (fun t => t.userId == uid) with
        | none =>
          simp only [hfind] at h
          cases hl : listingText db rows with
          | none =>
            rw [hl] at h
            exact Option.noConfusion h
          | some txt =>
            rw [hl] at h
            cases Option.some.inj h
            exact Nat.le_refl _
        | some row =>
          simp only [hfind] at h
          exact safeResolveRow_count_le h v

lemma notify_user_inactivity_db_eq {db : DB} {now : Time} {toNumber : String} {sid : Nat}
    {r : DB × List Effect} (h : notify_user_inactivity db now toNumber sid = some r) :
    r.1 = db := by
  unfold notify_user_inactivity at h
  cases hu : get_user_by_phone db toNumber with
  | none =>
    rw [hu] at h
    exact Option.noConfusion h
  | some u =>
    simp only [hu] at h
    split at h
    · cases Option.some.inj h
      rfl
    · cases hm : get_last_check_in db u.id now with
      | none =>
        rw [hm] at h
        exact Option.noConfusion h
      | some m =>
        simp only [hm] at h
        split at h <;> (cases Option.some.inj h; rfl)

lemma call_user_inactivity_db_eq {db : DB} {now : Time} {toNumber : String} {sid : Nat}
    {r : DB × List Effect} (h : call_user_inactivity db now toNumber sid = some r) :
    r.1 = db := by
  unfold call_user_inactivity at h
  cases hu : get_user_by_phone db toNumber with
  | none =>
    rw [hu] at h
    exact Option.noConfusion h
  | some u =>
    simp only [hu] at h
    split at h
    · cases Option.some.inj h
      rfl
    · cases hm : get_last_check_in db u.id now with
      | none =>
        rw [hm] at h
        exact Option.noConfusion h
      | some m =>
        simp only [hm] at h
        split at h <;> (cases Option.some.inj h; rfl)

lemma escalate_inactivity_count_le {db : DB} {now : Time} {toNumber : String} {sid : Nat}
    {r : DB × List Effect} (h : escalate_inactivity db now toNumber sid = some r) (v : Nat) :
    countActive r.1 v ≤ countActive db v := by
  have hAlert : (SessionStatus.alert ≠ SessionStatus.active) := by intro hx; cases hx
  unfold escalate_inactivity at h
  cases hu : get_user_by_phone db toNumber with
  | none =>
    rw [hu] at h
    exact Option.noConfusion h
  | some u =>
    simp only [hu] at h
    split at h
    · cases Option.some.inj h
      exact Nat.le_refl _
    · cases hm : get_last_check_in db u.id now with
      | none =>
        rw [hm] at h
        exact Option.noConfusion h
      | some m =>
        simp only [hm] at h
        split at h
        · cases Option.some.inj h
          exact Nat.le_refl _
        · cases hcs : get_escalation_contacts db u.id with
          | none =>
            simp only [hcs] at h
            cases Option.some.inj h
            exact Nat.le_refl _
          | some cs =>
            simp only [hcs] at h
            cases Option.some.inj h
            exact closeLoop_count_le hAlert _ _ u.id now v

lemma beginCommand_count_le_one (db : DB) (now : Time) (message toNumber : String)
    (hinv : atMostOneActive db) (v : Nat) :
    countActive (beginCommand db now message toNumber).1 v ≤ 1 := by
  have hIna : (SessionStatus.inactive ≠ SessionStatus.active) := by intro h; cases h
  cases hu : get_user_by_phone db toNumber with
  | none =>
    simp only [beginCommand, hu]
    exact hinv v
  | some u =>
    have hz : countActive
        (closeAllActive (log_user_message db u.id message .incoming now) u.id now) u.id = 0 :=
      closeLoop_count_zero hIna _ _ u.id now (List.countP_le_length _)
    have husers2 : (closeAllActive (log_user_message db u.id message .incoming now) u.id now).users
        = db.users := closeLoop_users _ _ _ _ _
    have hu2 : (get_user_by_id
        (closeAllActive (log_user_message db u.id message .incoming now) u.id now) u.id).isSome
        = true := by
      unfold get_user_by_id
      rw [husers2]
      exact get_user_by_id_isSome (get_user_by_phone_mem hu)
    have hstart := start_session_spec hu2 hz now
    simp only [beginCommand, hu, hstart]
    show List.countP (activeFor v)
        ((closeAllActive (log_user_message db u.id message .incoming now) u.id now).sessions ++
          [{ id := (closeAllActive (log_user_message db u.id message .incoming now) u.id
                now).nextSessionId,
             userId := u.id, startedAt := now, endedAt := none, status := .active,
             lastCheckInAt := now, checkedInByContactId := none }]) ≤ 1
    rw [List.countP_append, List.countP_singleton]
    have hle : List.countP (activeFor v)
        (closeAllActive (log_user_message db u.id message .incoming now) u.id now).sessions ≤
        countActive db v := closeLoop_count_le hIna _ _ u.id now v
    by_cases hv : v = u.id
    · subst hv
      have h0 : List.countP (activeFor u.id)
          (closeAllActive (log_user_message db u.id message .incoming now) u.id now).sessions
          = 0 := hz
      rw [h0]
      simp [activeFor]
    · have hbf : activeFor v
          ({ id := (closeAllActive (log_user_message db u.id message .incoming now) u.id
                now).nextSessionId,
             userId := u.id, startedAt := now, endedAt := none, status := .active,
             lastCheckInAt := now, checkedInByContactId := none } : Session) = false := by
        simp only [activeFor]
        simp
        omega
      rw [hbf]
      have h2 := hinv v
      simp only [Bool.false_eq_true, if_false]
      omega

/-- C4: every core operation preserves the invariant that each user owns
at most one session with status active: if it holds before a `Step`, it
holds after — hence it holds in every state reachable by the core
operations from a state satisfying it. -/
theorem c4_at_most_one_active_session_preserved
    (db db' : DB) (hinv : atMostOneActive db) (hstep : Step db db') :
    atMostOneActive db' := by
  intro v
  cases hstep with
  | begin_step now message toNumber =>
    exact beginCommand_count_le_one db now message toNumber hinv v
  | done_step now message toNumber =>
    exact Nat.le_trans (doneCommand_count_le db now message toNumber v) (hinv v)
  | checkin_step now message toNumber =>
    exact Nat.le_trans (replyCommand_count_le db now message toNumber v) (hinv v)
  | safe_step now message toNumber r h =>
    exact Nat.le_trans (safeCommand_count_le h v) (hinv v)
  | notify_step now toNumber sid r h =>
    rw [notify_user_inactivity_db_eq h]
    exact hinv v
  | call_step now toNumber sid r h =>
    rw [call_user_inactivity_db_eq h]
    exact hinv v
  | escalate_step now toNumber sid r h =>
    exact Nat.le_trans (escalate_inactivity_count_le h v) (hinv v)

/-- Witness for C4: `dbFresh` satisfies the invariant, and the store left
by a "done"-command step on it still satisfies it. -/
theorem c4_at_most_one_active_session_preserved_witness :
    atMostOneActive (doneCommand dbFresh 50 "done" "+15550000001").1 :=
  c4_at_most_one_active_session_preserved dbFresh _
    (fun _ => List.countP_le_length _)
    (Step.done_step dbFresh 50 "done" "+15550000001")
